import Mathlib

/-!
# Verification of the Housing Hub backend (`src/backend/server.js`)

A shallow embedding of the backend of the rental-property marketplace:
the WebSocket connection registry and relay handler, and the REST route
handlers that the specification's claims are about.  Identifiers (user,
property, conversation ids) are modelled as `String`, matching the
`String(...)` coercions the source applies to ObjectIds before comparing
them.  MongoDB collections are modelled as Lean lists; the document
operations used by the source (`findById`, `find`, `save` under a unique
index, `deleteMany`, `findByIdAndUpdate`, `findByIdAndDelete`) are
translated one by one.  External effects (bcrypt hashing, Cloudinary
uploads, the Gemini API) are abstracted at the call boundary: stored
password digests are compared by equality, upload results are passed in
as the list of resulting URLs.
-/

namespace HousingHub

/-- A JavaScript value, as needed to model dynamic property access on
Mongoose documents (`user.userType` where the schema path is `user_type`
yields `undefined`). -/
inductive JsValue where
  | undefined : JsValue
  | vstr : String → JsValue
  | vbool : Bool → JsValue
  | vnum : Nat → JsValue
deriving DecidableEq, Repr

/-- JavaScript truthiness of a `JsValue`. -/
def JsValue.truthy : JsValue → Bool
  | .undefined => false
  | .vstr s => s ≠ ""
  | .vbool b => b
  | .vnum n => n ≠ 0

/-- JavaScript strict equality (`===`) against a string literal: only a
string value can be strictly equal to a string. -/
def JsValue.strictEqStr : JsValue → String → Bool
  | .vstr s, t => s = t
  | _, _ => false

/-! ## The connection registry (`const clients = new Map()`)

A JavaScript `Map` keyed by user id, modelled as an association list with
in-place replacement on `set`, first-occurrence lookup on `get` and
removal on `delete` — the semantics of `Map` when keys are unique, which
the `set`/`delete` operations preserve. -/

/-- The `Map.prototype.set`: replace the entry for `k` in place, or append. -/
def mapSet {A : Type} (m : List (String × A)) (k : String) (v : A) : List (String × A) :=
  match m with
  | [] => [(k, v)]
  | (k', v') :: rest => if k' = k then (k, v) :: rest else (k', v') :: mapSet rest k v

/-- The `Map.prototype.get`. -/
def mapGet {A : Type} (m : List (String × A)) (k : String) : Option A :=
  match m with
  | [] => none
  | (k', v') :: rest => if k' = k then some v' else mapGet rest k

/-- The `Map.prototype.delete`: removes the entry for `k` (the first match;
with unique keys, the only one). -/
def mapDelete {A : Type} (m : List (String × A)) (k : String) : List (String × A) :=
  match m with
  | [] => []
  | (k', v') :: rest => if k' = k then rest else (k', v') :: mapDelete rest k

/-- The registry invariant: each user id keys at most one entry. -/
def keysNodup {A : Type} (m : List (String × A)) : Prop :=
  (m.map Prod.fst).Nodup

/-- A live WebSocket connection handle (`ws`).  `handle` identifies the
underlying socket object; `userId`/`userType` are the expando fields the
auth branch assigns onto it. -/
structure Ws where
  handle : Nat
  readyState : Nat
  userId : Option String := none
  userType : Option String := none
deriving DecidableEq, Repr

/-- The `ws.OPEN` (the `WebSocket.OPEN` ready-state constant). -/
def wsOPEN : Nat := 1

/-- The auth branch of the frame handler (`server.js:165-173`), after a
token verifies to `{userId, userType}`: `clients.set(user.userId, ws);
ws.userId = user.userId; ws.userType = user.userType`.  Mutation of the
shared `ws` object is modelled by returning the updated connection along
with the updated registry (the registry stores the same object). -/
def authRegister (clients : List (String × Ws)) (ws : Ws) (uid ut : String) :
    List (String × Ws) × Ws :=
  let updated : Ws := { ws with userId := some uid, userType := some ut }
  (mapSet clients uid updated, updated)

/-- The close handler (`server.js:216`):
`ws.on('close', () => { if(ws.userId) { clients.delete(ws.userId); } })`.
The delete is keyed only by the closing socket's `userId`; it does not
check that the registry entry still points at this socket. -/
def closeHandler (clients : List (String × Ws)) (ws : Ws) : List (String × Ws) :=
  match ws.userId with
  | some uid => mapDelete clients uid
  | none => clients

/-! ## Document model (the Mongoose schemas of `server.js`) -/

/-- The `ConversationSchema` (`server.js:104`). -/
structure Conversation where
  _id : String
  property_id : String
  student_id : String
  landlord_id : String
deriving DecidableEq, Repr

/-- The `MessageSchema` (`server.js:105`). -/
structure Message where
  conversation_id : String
  sender_id : String
  content : String
deriving DecidableEq, Repr

/-- The `Conversation.findById`. -/
def findConversation (cs : List Conversation) (cid : String) : Option Conversation :=
  cs.find? (fun c => c._id = cid)

/-- The state touched by the relay: the conversations and messages
collections and the connection registry. -/
structure RelayState where
  conversations : List Conversation
  messages : List Message
  clients : List (String × Ws)
deriving DecidableEq, Repr

/-- The `content.toLowerCase().includes('help')`. -/
def containsHelp (content : String) : Bool :=
  (content.toLower.splitOn "help").length ≠ 1

/-- The `[senderId, recipientId].forEach(id => ...)` loop of the source:
for each id in order, fetch its registered connection from `clients` and,
if present and open, send the payload on it.  A performed send is a pair
of the target socket and the pushed message. -/
def broadcastTo (clients : List (String × Ws)) (ids : List String) (msg : Message) :
    List (Ws × Message) :=
  ids.foldl (fun acc i =>
    match mapGet clients i with
    | some clientWs =>
      if clientWs.readyState = wsOPEN then acc ++ [(clientWs, msg)] else acc
    | none => acc) []

/-- The chat branch of the WebSocket frame handler (`server.js:174-213`),
reached when `data.type === 'message' && ws.userId`.  Looks up the
conversation by id and returns silently if absent; otherwise saves a new
message, resolves the recipient as the conversation's landlord when the
sender is its student and as its student otherwise, and sends the new
message to each of sender and recipient whose registered connection is
currently open.  Returns the new state, the list of performed sends
(socket handle paired with the pushed message), and whether the delayed
scripted auto-reply was scheduled (the `setTimeout` body itself runs
later and is outside this synchronous step). -/
def handleChatMessage (st : RelayState) (ws : Ws) (conversation_id content : String) :
    RelayState × List (Ws × Message) × Bool :=
  match ws.userId with
  | none => (st, [], false)
  | some senderId =>
    match findConversation st.conversations conversation_id with
    | none => (st, [], false)
    | some conversation =>
      let newMessage : Message :=
        { conversation_id := conversation_id, sender_id := senderId, content := content }
      let recipientId :=
        if conversation.student_id = senderId then conversation.landlord_id
        else conversation.student_id
      let sends := broadcastTo st.clients [senderId, recipientId] newMessage
      let botScheduled := ws.userType = some "student" && containsHelp content
      ({ st with messages := st.messages ++ [newMessage] }, sends, botScheduled)

/-- The sends produced for a single id of the forEach loop body. -/
def sendIfOpen (clients : List (String × Ws)) (i : String) (msg : Message) :
    List (Ws × Message) :=
  match mapGet clients i with
  | some clientWs => if clientWs.readyState = wsOPEN then [(clientWs, msg)] else []
  | none => []

/-! ## REST layer -/

/-- The observable part of an HTTP response: the status code and, when
the handler sets one, the `message` field of the JSON body. -/
structure ApiResponse where
  status : Nat
  message : String := ""
deriving DecidableEq, Repr

/-- The `UserSchema` (`server.js:51-82`). -/
structure User where
  _id : String
  username : String
  email : String
  password : String
  user_type : String
  profilePictureUrl : String := ""
  bio : String := ""
  isVerified : Bool := false
  verificationStatus : String := "none"
  verificationDocument : String := ""
deriving DecidableEq, Repr

/-- JavaScript property access on a `User` Mongoose document: the schema
paths of `UserSchema` resolve to their values; any other property name
yields `undefined`.  In particular `"userType"` is not a schema path
(the path is `"user_type"`). -/
def User.get (u : User) (field : String) : JsValue :=
  if field = "_id" then .vstr u._id
  else if field = "username" then .vstr u.username
  else if field = "email" then .vstr u.email
  else if field = "password" then .vstr u.password
  else if field = "user_type" then .vstr u.user_type
  else if field = "profilePictureUrl" then .vstr u.profilePictureUrl
  else if field = "bio" then .vstr u.bio
  else if field = "isVerified" then .vbool u.isVerified
  else if field = "verificationStatus" then .vstr u.verificationStatus
  else if field = "verificationDocument" then .vstr u.verificationDocument
  else .undefined

/-- The `User.findById`. -/
def findUserById (users : List User) (uid : String) : Option User :=
  users.find? (fun u => u._id = uid)

/-- The `User.findByIdAndUpdate(uid, ...)` for an update `f` of the matched
document (`_id` is immutable in MongoDB). -/
def updateUserById (users : List User) (uid : String) (f : User → User) : List User :=
  match users with
  | [] => []
  | u :: rest => if u._id = uid then f u :: rest else u :: updateUserById rest uid f

/-- The `User.findByIdAndDelete(uid)`. -/
def deleteUserById (users : List User) (uid : String) : List User :=
  match users with
  | [] => []
  | u :: rest => if u._id = uid then rest else u :: deleteUserById rest uid

/-- The `PropertySchema` (`server.js:84-100`). -/
structure Property where
  _id : String
  landlord_id : String
  title : String
  description : String := ""
  address : String
  city : String
  price : Nat
  property_type : String
  bedrooms : Option Nat := none
  bathrooms : Option Nat := none
  amenities : String := ""
  image_url : String := ""
  images : List String := []
  lat : Option Int := none
  lng : Option Int := none
  virtual_tour_url : String := ""
deriving DecidableEq, Repr

/-- The `Property.findById`. -/
def findProperty (ps : List Property) (pid : String) : Option Property :=
  ps.find? (fun p => p._id = pid)

/-- A `req.body` for `PUT /api/properties/:id`: the property fields
present in the update document (`{ ...req.body }` handed to
`findByIdAndUpdate`); an absent field leaves the stored value. -/
structure PropertyUpdate where
  title : Option String := none
  description : Option String := none
  address : Option String := none
  city : Option String := none
  price : Option Nat := none
  property_type : Option String := none
  bedrooms : Option (Option Nat) := none
  bathrooms : Option (Option Nat) := none
  amenities : Option String := none
  image_url : Option String := none
  images : Option (List String) := none
  lat : Option (Option Int) := none
  lng : Option (Option Int) := none
  virtual_tour_url : Option String := none
deriving DecidableEq, Repr

/-- Application of an update document to a stored property. -/
def applyUpdate (p : Property) (u : PropertyUpdate) : Property :=
  { p with
    title := u.title.getD p.title,
    description := u.description.getD p.description,
    address := u.address.getD p.address,
    city := u.city.getD p.city,
    price := u.price.getD p.price,
    property_type := u.property_type.getD p.property_type,
    bedrooms := u.bedrooms.getD p.bedrooms,
    bathrooms := u.bathrooms.getD p.bathrooms,
    amenities := u.amenities.getD p.amenities,
    image_url := u.image_url.getD p.image_url,
    images := u.images.getD p.images,
    lat := u.lat.getD p.lat,
    lng := u.lng.getD p.lng,
    virtual_tour_url := u.virtual_tour_url.getD p.virtual_tour_url }

/-- The `Property.findByIdAndUpdate(id, data)`: updates the document with the
matching `_id` (unique in MongoDB). -/
def updatePropertyById (ps : List Property) (pid : String) (u : PropertyUpdate) :
    List Property :=
  match ps with
  | [] => []
  | p :: rest =>
    if p._id = pid then applyUpdate p u :: rest else p :: updatePropertyById rest pid u

/-- The `Property.findByIdAndDelete(id)`. -/
def deletePropertyById (ps : List Property) (pid : String) : List Property :=
  match ps with
  | [] => []
  | p :: rest => if p._id = pid then rest else p :: deletePropertyById rest pid

/-- The `PUT /api/properties/:id` (`server.js:435-447`), after
`authenticateToken` has set `req.user.userId = callerId`. -/
def putPropertyHandler (properties : List Property) (callerId pid : String)
    (body : PropertyUpdate) : List Property × ApiResponse :=
  match findProperty properties pid with
  | none => (properties, { status := 404, message := "Property not found" })
  | some property =>
    if property.landlord_id ≠ callerId then
      (properties, { status := 403, message := "User not authorized" })
    else
      (updatePropertyById properties pid body, { status := 200 })

/-- The `DELETE /api/properties/:id` (`server.js:449-460`), after
`authenticateToken`. -/
def deletePropertyHandler (properties : List Property) (callerId pid : String) :
    List Property × ApiResponse :=
  match findProperty properties pid with
  | none => (properties, { status := 404, message := "Property not found" })
  | some property =>
    if property.landlord_id ≠ callerId then
      (properties, { status := 403, message := "User not authorized" })
    else
      (deletePropertyById properties pid, { status := 200, message := "Property removed" })

/-- A `req.body` for `POST /api/properties` (the property fields the
client submits; `landlord_id`, `image_url` and `images` are overridden by
the handler). -/
structure NewPropertyBody where
  title : String
  description : String := ""
  address : String
  city : String
  price : Nat
  property_type : String
  bedrooms : Option Nat := none
  bathrooms : Option Nat := none
  amenities : String := ""
  lat : Option Int := none
  lng : Option Int := none
  virtual_tour_url : String := ""
deriving DecidableEq, Repr

/-- The gatekeeper rejection text of `POST /api/properties`
(`server.js:402`). -/
def accessDeniedMessage : String :=
  "⛔ Access Denied: You must be a Verified Landlord to post properties. Please upload your ID in the Profile section."

/-- The `POST /api/properties` (`server.js:395-433`), after
`authenticateToken` and the image uploads (whose resulting secure URLs
are `imageUrls`); `newId` is the ObjectId MongoDB assigns to the new
document.  The gatekeeper is the literal source condition
`user.userType === 'landlord' && !user.isVerified`, evaluated through
`User.get` — JavaScript property access on the freshly fetched Mongoose
document.  A missing user makes `user.userType` throw; the catch-all
reports the generic 500. -/
def postPropertyHandler (users : List User) (properties : List Property)
    (callerId newId : String) (body : NewPropertyBody) (imageUrls : List String) :
    List Property × ApiResponse :=
  match findUserById users callerId with
  | none => (properties, { status := 500, message := "Server error adding property" })
  | some user =>
    if (User.get user "userType").strictEqStr "landlord" &&
        !(User.get user "isVerified").truthy then
      (properties, { status := 403, message := accessDeniedMessage })
    else
      let newProperty : Property :=
        { _id := newId, landlord_id := callerId, title := body.title,
          description := body.description, address := body.address, city := body.city,
          price := body.price, property_type := body.property_type,
          bedrooms := body.bedrooms, bathrooms := body.bathrooms,
          amenities := body.amenities, image_url := imageUrls.headD "",
          images := imageUrls, lat := body.lat, lng := body.lng,
          virtual_tour_url := body.virtual_tour_url }
      (properties ++ [newProperty], { status := 201 })

/-- The `POST /api/admin/verify-action` (`server.js:1023-1044`).  The route
is registered with no authentication middleware, so the handler runs for
any caller; `authHeader` (the Authorization header of the request, if
any) is never consulted. -/
def verifyActionHandler (authHeader : Option String) (users : List User)
    (userId action : String) : List User × ApiResponse :=
  if !(["approve", "reject"].contains action) then
    (users, { status := 400, message := "Invalid action" })
  else
    let status := if action = "approve" then "approved" else "rejected"
    let isVerified := action == "approve"
    (updateUserById users userId (fun u =>
        { u with verificationStatus := status, isVerified := isVerified }),
      { status := 200, message := "User " ++ status ++ " successfully!" })

/-- JavaScript falsiness of an optional string body field (absent, or
present but empty). -/
def jsFalsyStr (o : Option String) : Bool := (o.getD "") = ""

/-- The `POST /api/upload-verification` (`server.js:242-273`): likewise
registered with no authentication middleware; `authHeader` is never
consulted. -/
def uploadVerificationHandler (authHeader : Option String) (users : List User)
    (userId documentImage : Option String) : List User × ApiResponse :=
  if jsFalsyStr userId || jsFalsyStr documentImage then
    (users, { status := 400, message := "Missing user ID or document" })
  else
    match findUserById users (userId.getD "") with
    | none => (users, { status := 404, message := "User not found" })
    | some _ =>
      (updateUserById users (userId.getD "") (fun u =>
          { u with verificationStatus := "pending",
                   verificationDocument := documentImage.getD "" }),
        { status := 200,
          message := "Verification submitted successfully! Please wait for Admin approval." })

/-- The `ReviewSchema` (`server.js:108-114`), carrying the unique compound
index on `(property_id, user_id)` declared at `server.js:114`. -/
structure Review where
  property_id : String
  user_id : String
  rating : Nat
  comment : String
deriving DecidableEq, Repr

/-- Mongoose document validation for a review: `rating` required with
`min: 1, max: 5`; `comment` required with `maxLength: 1000`. -/
def reviewValid (r : Review) : Bool :=
  1 ≤ r.rating && r.rating ≤ 5 && r.comment ≠ "" && r.comment.length ≤ 1000

/-- The failures `save()` can raise here: a Mongoose validation error, or
the MongoDB duplicate-key error (code 11000) from a unique index. -/
inductive SaveError where
  | validation : SaveError
  | duplicateKey : SaveError
deriving DecidableEq, Repr

/-- The `newReview.save()`: Mongoose validates the document first; then the
unique index on `(property_id, user_id)` rejects a duplicate pair with
error code 11000; otherwise the document is inserted. -/
def saveReview (reviews : List Review) (r : Review) : Except SaveError (List Review) :=
  if !reviewValid r then .error .validation
  else if reviews.any (fun q => q.property_id = r.property_id && q.user_id = r.user_id) then
    .error .duplicateKey
  else .ok (reviews ++ [r])

/-- The `POST /api/properties/:propertyId/reviews` (`server.js:575-605`),
after `authenticateToken` has set `req.user = {userId, userType}`.
`rating` and `comment` are the raw body fields; `!rating` is
JavaScript-falsy for an absent rating and for 0, `!comment` for an
absent or empty comment.  Only the duplicate-key error (code 11000) gets
the distinguishable 409; any other save failure falls to the generic
500. -/
def postReviewHandler (reviews : List Review) (userId userType propertyId : String)
    (rating : Option Nat) (comment : Option String) : List Review × ApiResponse :=
  if userType ≠ "student" then
    (reviews, { status := 403, message := "Only students can leave reviews." })
  else if rating.getD 0 = 0 || (comment.getD "") = "" then
    (reviews, { status := 400, message := "Rating and comment are required." })
  else
    match saveReview reviews
        { property_id := propertyId, user_id := userId,
          rating := rating.getD 0, comment := comment.getD "" } with
    | .error .duplicateKey =>
      (reviews, { status := 409, message := "You have already reviewed this property." })
    | .error .validation => (reviews, { status := 500, message := "Server error posting review." })
    | .ok reviews' => (reviews', { status := 201 })

/-- At most one review per `(property_id, user_id)` pair. -/
def atMostOneReviewPerPair (reviews : List Review) : Prop :=
  List.Pairwise (fun a b => ¬(a.property_id = b.property_id ∧ a.user_id = b.user_id)) reviews

/-- The `FavoriteSchema` (`server.js:102`), carrying the unique compound
index on `(user_id, property_id)` declared at `server.js:103`. -/
structure Favorite where
  user_id : String
  property_id : String
deriving DecidableEq, Repr

/-- The `NotificationSchema` (`server.js:107`). -/
structure Notification where
  recipient_id : String
  sender_id : Option String := none
  message : String
  link : Option String := none
  isRead : Bool := false
deriving DecidableEq, Repr

/-- The `favorite.save()`: the unique index on `(user_id, property_id)`
rejects a duplicate pair with the duplicate-key error; otherwise the
document is inserted. -/
def saveFavorite (favorites : List Favorite) (f : Favorite) :
    Except SaveError (List Favorite) :=
  if favorites.any (fun g => g.user_id = f.user_id && g.property_id = f.property_id) then
    .error .duplicateKey
  else .ok (favorites ++ [f])

/-- The state touched by `POST /api/favorites`. -/
structure FavoritesState where
  favorites : List Favorite
  properties : List Property
  notifications : List Notification
  clients : List (String × Ws)
deriving DecidableEq, Repr

/-- The `POST /api/favorites` (`server.js:485-511`), after
`authenticateToken`.  Any error from `favorite.save()` — including the
duplicate-key error from the unique index — lands in the single catch,
which reports a generic 500: unlike the review route there is no
`error.code === 11000` branch.  On a successful save, if the property
exists and its landlord is not the caller, a notification is saved and
pushed to the landlord's registered connection when its ready state is
1.  The last component lists the performed WebSocket sends. -/
def postFavoriteHandler (st : FavoritesState) (userId property_id : String) :
    FavoritesState × ApiResponse × List (Ws × Notification) :=
  match saveFavorite st.favorites { user_id := userId, property_id := property_id } with
  | .error _ => (st, { status := 500, message := "Error adding favorite" }, [])
  | .ok favorites' =>
    match findProperty st.properties property_id with
    | some property =>
      if property.landlord_id ≠ userId then
        let notification : Notification :=
          { recipient_id := property.landlord_id, sender_id := some userId,
            message := "Your property \x27" ++ property.title ++ "\x27 has a new favorite!",
            link := some ("/properties/" ++ property_id) }
        let sends :=
          match mapGet st.clients property.landlord_id with
          | some landlordWs =>
            if landlordWs.readyState = 1 then [(landlordWs, notification)] else []
          | none => []
        ({ st with favorites := favorites',
                   notifications := st.notifications ++ [notification] },
          { status := 201 }, sends)
      else ({ st with favorites := favorites' }, { status := 201 }, [])
    | none => ({ st with favorites := favorites' }, { status := 201 }, [])

/-- The `PropertyViewSchema` (`server.js:106`). -/
structure PropertyView where
  property_id : String
deriving DecidableEq, Repr

/-- The state touched by `POST /api/profile/delete-account`. -/
structure AccountState where
  users : List User
  properties : List Property
  favorites : List Favorite
  conversations : List Conversation
  propertyViews : List PropertyView
deriving DecidableEq, Repr

/-- The `POST /api/profile/delete-account` (`server.js:780-815`), after
`authenticateToken` has set `req.user = {userId, userType}`.
`bcrypt.compare(password, user.password)` is abstracted to equality with
the stored digest.  For a landlord the handler collects the landlord's
properties, deletes them (`deleteMany({landlord_id})`), then deletes all
favorites, conversations and property views whose `property_id` is among
the collected ids (`deleteMany({property_id: {$in: propertyIds}})`), and
finally deletes the user document. -/
def deleteAccountHandler (st : AccountState) (userId userType : String)
    (password : Option String) : AccountState × ApiResponse :=
  if jsFalsyStr password then
    (st, { status := 400, message := "Password is required for deletion." })
  else
    match findUserById st.users userId with
    | none => (st, { status := 404, message := "User not found." })
    | some user =>
      if password.getD "" ≠ user.password then
        (st, { status := 401, message := "Incorrect password." })
      else
        let st' :=
          if userType = "landlord" then
            let propertyIds :=
              (st.properties.filter (fun p => p.landlord_id == userId)).map (fun p => p._id)
            { st with
              properties := st.properties.filter (fun p => p.landlord_id != userId),
              favorites := st.favorites.filter (fun f => !(propertyIds.contains f.property_id)),
              conversations :=
                st.conversations.filter (fun c => !(propertyIds.contains c.property_id)),
              propertyViews :=
                st.propertyViews.filter (fun v => !(propertyIds.contains v.property_id)) }
          else if userType = "student" then
            { st with
              favorites := st.favorites.filter (fun f => f.user_id != userId),
              conversations := st.conversations.filter (fun c => c.student_id != userId) }
          else st
        ({ st' with users := deleteUserById st'.users userId },
          { status := 200, message := "Your account has been permanently deleted." })

/-! ## Module evaluation of the route registrations (for the
`requireAuth` reference) -/

/-- One `app.<method>(path, middleware..., handler)` statement: the
identifiers its middleware arguments reference (handler lambdas are
literals and reference no free middleware identifier). -/
structure RouteRegistration where
  method : String
  path : String
  middleware : List String
deriving DecidableEq, Repr

/-- The top-level identifiers `server.js` binds (its `const` declarations)
before the route registrations execute.  `requireAuth` is bound nowhere
in the module (nor imported). -/
def topLevelConsts : List String :=
  ["connectDB", "app", "PORT", "JWT_SECRET", "GEMINI_API_KEY", "server", "wss",
   "ApplicationSchema", "Application", "UserSchema", "PropertySchema", "FavoriteSchema",
   "ConversationSchema", "MessageSchema", "PropertyViewSchema", "NotificationSchema",
   "ReviewSchema", "User", "Property", "Favorite", "Conversation", "Message",
   "PropertyView", "Notification", "Review", "storage", "upload", "corsOptions",
   "authenticateToken", "clients"]

/-- Every `app.<method>(...)` route registration of `server.js`, in source
order, with the identifiers referenced in middleware position
(`upload.array(...)` and `upload.single(...)` reference `upload`). -/
def sourceRegistrations : List RouteRegistration :=
  [⟨"post", "/api/signup", []⟩,
   ⟨"post", "/api/upload-verification", []⟩,
   ⟨"post", "/api/login", []⟩,
   ⟨"get", "/api/properties", []⟩,
   ⟨"get", "/api/properties/featured", []⟩,
   ⟨"get", "/api/properties/cities", []⟩,
   ⟨"get", "/api/properties/:id", []⟩,
   ⟨"post", "/api/properties", ["authenticateToken", "upload"]⟩,
   ⟨"put", "/api/properties/:id", ["authenticateToken"]⟩,
   ⟨"delete", "/api/properties/:id", ["authenticateToken"]⟩,
   ⟨"post", "/api/properties/:propertyId/view", []⟩,
   ⟨"get", "/api/favorites", ["authenticateToken"]⟩,
   ⟨"post", "/api/favorites", ["authenticateToken"]⟩,
   ⟨"delete", "/api/favorites/:propertyId", ["authenticateToken"]⟩,
   ⟨"get", "/api/conversations", ["authenticateToken"]⟩,
   ⟨"post", "/api/conversations", ["authenticateToken"]⟩,
   ⟨"get", "/api/conversations/:id/messages", ["authenticateToken"]⟩,
   ⟨"get", "/api/properties/:propertyId/reviews", []⟩,
   ⟨"post", "/api/properties/:propertyId/reviews", ["authenticateToken"]⟩,
   ⟨"get", "/api/properties/:propertyId/reviews/summary", []⟩,
   ⟨"get", "/api/profile/stats", ["authenticateToken"]⟩,
   ⟨"post", "/api/profile/change-password", ["authenticateToken"]⟩,
   ⟨"put", "/api/profile/update-username", ["authenticateToken"]⟩,
   ⟨"put", "/api/profile/upload-picture", ["authenticateToken", "upload"]⟩,
   ⟨"put", "/api/profile/update-bio", ["authenticateToken"]⟩,
   ⟨"post", "/api/profile/delete-account", ["authenticateToken"]⟩,
   ⟨"get", "/api/dashboard/stats", ["authenticateToken"]⟩,
   ⟨"get", "/api/notifications", ["authenticateToken"]⟩,
   ⟨"put", "/api/notifications/mark-read", ["authenticateToken"]⟩,
   ⟨"post", "/api/properties/generate-description", ["authenticateToken"]⟩,
   ⟨"post", "/api/conversations/:id/ask-ai", ["authenticateToken"]⟩,
   ⟨"get", "/api/admin/verifications", []⟩,
   ⟨"post", "/api/admin/verify-action", []⟩,
   ⟨"post", "/api/applications", ["requireAuth"]⟩,
   ⟨"get", "/api/applications/student", ["requireAuth"]⟩,
   ⟨"get", "/api/applications/landlord", ["requireAuth"]⟩,
   ⟨"post", "/api/applications/:id/status", ["requireAuth"]⟩]

/-- Evaluating the registrations in order: a registration whose
middleware references an identifier with no top-level binding throws a
`ReferenceError` naming it (and module evaluation stops there). -/
def moduleEvalError (regs : List RouteRegistration) : Option String :=
  match regs with
  | [] => none
  | r :: rest =>
    match r.middleware.find? (fun m => !(topLevelConsts.contains m)) with
    | some m => some m
    | none => moduleEvalError rest

/-- The routes registered before evaluation throws: the route table
Express holds when the module fails to load. -/
def registeredRoutes (regs : List RouteRegistration) : List RouteRegistration :=
  match regs with
  | [] => []
  | r :: rest =>
    if r.middleware.all (fun m => topLevelConsts.contains m) then
      r :: registeredRoutes rest
    else []

/-- The four application endpoints. -/
def applicationPaths : List String :=
  ["/api/applications", "/api/applications/student", "/api/applications/landlord",
   "/api/applications/:id/status"]

/-! ## Concrete fixtures used by closed theorems and witnesses -/

/-- A stored landlord account that is not verified. -/
def unverifiedLandlord : User :=
  { _id := "l1", username := "lucy", email := "lucy@mail.com", password := "pw",
    user_type := "landlord", isVerified := false, verificationStatus := "none" }

/-- A minimal valid listing body. -/
def sampleListing : NewPropertyBody :=
  { title := "Flat", address := "1 Main St", city := "Pune", price := 100,
    property_type := "apartment" }

/-- A property stored with owner `"A"`. -/
def propertyOfA : Property :=
  { _id := "p1", landlord_id := "A", title := "Flat", address := "1 Main St",
    city := "Pune", price := 100, property_type := "apartment" }

/-- A favorites state in which user `"u1"` already has property `"p1"`
favorited. -/
def dupFavoriteState : FavoritesState :=
  { favorites := [{ user_id := "u1", property_id := "p1" }],
    properties := [{ _id := "p1", landlord_id := "l1", title := "Flat",
                     address := "1 Main St", city := "Pune", price := 100,
                     property_type := "apartment" }],
    notifications := [], clients := [] }

/-- A stored landlord account. -/
def landlordUser : User :=
  { _id := "L", username := "max", email := "max@mail.com", password := "pw",
    user_type := "landlord", isVerified := true, verificationStatus := "approved" }

/-- A state in which landlord `"L"` owns one property that a favorite, a
conversation and a view reference. -/
def cascadeState : AccountState :=
  { users := [landlordUser],
    properties := [{ _id := "pL", landlord_id := "L", title := "Flat",
                     address := "1 Main St", city := "Pune", price := 100,
                     property_type := "apartment" }],
    favorites := [{ user_id := "s1", property_id := "pL" }],
    conversations := [{ _id := "c1", property_id := "pL", student_id := "s1",
                        landlord_id := "L" }],
    propertyViews := [{ property_id := "pL" }] }

/-! ### Map lemmas -/

theorem mapGet_mapSet_self {A : Type} (m : List (String × A)) (k : String) (v : A) :
    mapGet (mapSet m k v) k = some v := by
  induction m with
  | nil => simp [mapSet, mapGet]
  | cons hd tl ih =>
    obtain ⟨k', v'⟩ := hd
    by_cases h : k' = k <;> simp [mapSet, mapGet, h, ih]

theorem mapSet_keys {A : Type} (m : List (String × A)) (k : String) (v : A) :
    (mapSet m k v).map Prod.fst =
      if k ∈ m.map Prod.fst then m.map Prod.fst else m.map Prod.fst ++ [k] := by
  induction m with
  | nil => simp [mapSet]
  | cons hd tl ih =>
    obtain ⟨k', v'⟩ := hd
    by_cases h : k' = k
    · subst h; simp [mapSet]
    · have hne : k ≠ k' := fun hc => h hc.symm
      by_cases hk : k ∈ tl.map Prod.fst <;> simp [mapSet, h, ih, hne, hk]

theorem keysNodup_mapSet {A : Type} (m : List (String × A)) (k : String) (v : A)
    (h : keysNodup m) : keysNodup (mapSet m k v) := by
  unfold keysNodup at *
  rw [mapSet_keys]
  by_cases hk : k ∈ m.map Prod.fst
  · simpa [hk] using h
  · simp only [hk, if_false]
    refine List.Nodup.append h (List.nodup_singleton k) ?_
    intro a ha hb
    simp only [List.mem_singleton] at hb
    subst hb
    exact hk ha

theorem count_key_mapSet {A : Type} (m : List (String × A)) (k : String) (v : A)
    (h : keysNodup m) :
    ((mapSet m k v).filter (fun e => e.1 = k)).length = 1 := by
  induction m with
  | nil => simp [mapSet]
  | cons hd tl ih =>
    obtain ⟨k', v'⟩ := hd
    unfold keysNodup at h
    simp only [List.map_cons, List.nodup_cons] at h
    by_cases hk : k' = k
    · subst hk
      have : (tl.filter (fun e => e.1 = k')).length = 0 := by
        rw [List.length_eq_zero, List.filter_eq_nil_iff]
        intro e he
        simp only [decide_eq_true_eq]
        intro hc
        exact h.1 (by simpa [hc] using List.mem_map_of_mem Prod.fst he)
      simp [mapSet, List.filter, this]
    · have := ih h.2
      simp [mapSet, hk, List.filter, this]

theorem mapGet_eq_none_of_not_mem_keys {A : Type} (m : List (String × A)) (k : String)
    (h : k ∉ m.map Prod.fst) : mapGet m k = none := by
  induction m with
  | nil => rfl
  | cons hd tl ih =>
    obtain ⟨k', v'⟩ := hd
    simp only [List.map_cons, List.mem_cons] at h
    push_neg at h
    have : k' ≠ k := fun hc => h.1 hc.symm
    simp [mapGet, this, ih h.2]

theorem mapDelete_keys_of_nodup {A : Type} (m : List (String × A)) (k : String)
    (h : keysNodup m) : k ∉ (mapDelete m k).map Prod.fst := by
  induction m with
  | nil => simp [mapDelete]
  | cons hd tl ih =>
    obtain ⟨k', v'⟩ := hd
    unfold keysNodup at h
    simp only [List.map_cons, List.nodup_cons] at h
    by_cases hk : k' = k
    · subst hk
      simpa [mapDelete] using h.1
    · simp only [mapDelete, if_neg hk, List.map_cons, List.mem_cons]
      push_neg
      exact ⟨fun hc => hk hc.symm, ih h.2⟩

theorem mapGet_mapDelete_self {A : Type} (m : List (String × A)) (k : String)
    (h : keysNodup m) : mapGet (mapDelete m k) k = none :=
  mapGet_eq_none_of_not_mem_keys _ _ (mapDelete_keys_of_nodup m k h)

theorem broadcastTo_pair (clients : List (String × Ws)) (s r : String) (msg : Message) :
    broadcastTo clients [s, r] msg =
      sendIfOpen clients s msg ++ sendIfOpen clients r msg := by
  simp only [broadcastTo, List.foldl, sendIfOpen]
  cases h1 : mapGet clients s <;> cases h2 : mapGet clients r <;> simp [h1, h2]
  split_ifs <;> simp

theorem mem_sendIfOpen (clients : List (String × Ws)) (i : String) (msg : Message)
    (p : Ws × Message) :
    p ∈ sendIfOpen clients i msg ↔
      p.2 = msg ∧ ∃ c, mapGet clients i = some c ∧ c.readyState = wsOPEN ∧ p.1 = c := by
  unfold sendIfOpen
  cases h : mapGet clients i with
  | none => simp
  | some c =>
    by_cases ho : c.readyState = wsOPEN
    · simp only [ho, if_true, List.mem_singleton]
      constructor
      · rintro rfl
        exact ⟨rfl, c, rfl, ho, rfl⟩
      · rintro ⟨h2, c', hc', ho', h1⟩
        obtain rfl : c = c' := by injection hc'
        obtain ⟨p1, p2⟩ := p
        simp_all
    · simp only [ho, if_false, List.not_mem_nil, false_iff, not_and]
      rintro _ ⟨c', hc', ho', h1⟩
      obtain rfl : c = c' := by injection hc'
      exact ho ho'

theorem mem_broadcast_pair (clients : List (String × Ws)) (s r : String) (msg : Message)
    (c : Ws) :
    (c, msg) ∈ broadcastTo clients [s, r] msg ↔
      ((mapGet clients s = some c ∨ mapGet clients r = some c) ∧ c.readyState = wsOPEN) := by
  rw [broadcastTo_pair, List.mem_append, mem_sendIfOpen, mem_sendIfOpen]
  constructor
  · rintro (⟨-, c', hc', ho', h1⟩ | ⟨-, c', hc', ho', h1⟩)
    · obtain rfl : c = c' := h1
      exact ⟨Or.inl hc', ho'⟩
    · obtain rfl : c = c' := h1
      exact ⟨Or.inr hc', ho'⟩
  · rintro ⟨hc | hc, ho⟩
    · exact Or.inl ⟨rfl, c, hc, ho, rfl⟩
    · exact Or.inr ⟨rfl, c, hc, ho, rfl⟩

theorem broadcast_pair_sound (clients : List (String × Ws)) (s r : String) (msg : Message)
    (p : Ws × Message) (hp : p ∈ broadcastTo clients [s, r] msg) :
    p.2 = msg ∧ ∃ c, (mapGet clients s = some c ∨ mapGet clients r = some c) ∧
      c.readyState = wsOPEN ∧ p.1 = c := by
  rw [broadcastTo_pair, List.mem_append, mem_sendIfOpen, mem_sendIfOpen] at hp
  rcases hp with ⟨h2, c, hc, ho, h1⟩ | ⟨h2, c, hc, ho, h1⟩
  · exact ⟨h2, c, Or.inl hc, ho, h1⟩
  · exact ⟨h2, c, Or.inr hc, ho, h1⟩

/-- C1: once a connection is authenticated (its `userId` is set), a chat
frame behaves as follows.  If the conversation id resolves to no
conversation, the frame is rejected silently: the state is unchanged and
nothing is sent.  If it resolves, a new message record with this
conversation id, sender and content is appended to the messages
collection (conversations and registry untouched); the counterparty is
one of the conversation's two participants and is not the sender; and
the new message is pushed to a registered connection of the sender or of
the counterparty exactly when that connection is currently open, with no
other sends performed. -/
theorem chat_frame_relay
    (st : RelayState) (ws : Ws) (cid content sender : String)
    (hauth : ws.userId = some sender) :
    (findConversation st.conversations cid = none →
      handleChatMessage st ws cid content = (st, [], false)) ∧
    (∀ conv, findConversation st.conversations cid = some conv →
      conv.student_id ≠ conv.landlord_id →
      (sender = conv.student_id ∨ sender = conv.landlord_id) →
      ((handleChatMessage st ws cid content).1.messages =
          st.messages ++ [{ conversation_id := cid, sender_id := sender, content := content }] ∧
        (handleChatMessage st ws cid content).1.conversations = st.conversations ∧
        (handleChatMessage st ws cid content).1.clients = st.clients ∧
        ∃ recipientId, recipientId ≠ sender ∧
          (recipientId = conv.student_id ∨ recipientId = conv.landlord_id) ∧
          (∀ uid, (uid = sender ∨ uid = recipientId) →
            ∀ c, mapGet st.clients uid = some c →
              ((c, ({ conversation_id := cid, sender_id := sender, content := content } : Message))
                  ∈ (handleChatMessage st ws cid content).2.1 ↔ c.readyState = wsOPEN)) ∧
          (∀ p ∈ (handleChatMessage st ws cid content).2.1,
            p.2 = ({ conversation_id := cid, sender_id := sender, content := content } : Message) ∧
            ∃ c, (mapGet st.clients sender = some c ∨ mapGet st.clients recipientId = some c) ∧
              c.readyState = wsOPEN ∧ p.1 = c))) := by
  constructor
  · intro h
    simp [handleChatMessage, hauth, h]
  · intro conv hconv hne hsender
    have hmain : handleChatMessage st ws cid content =
        ({ st with messages := st.messages ++
            [{ conversation_id := cid, sender_id := sender, content := content }] },
          broadcastTo st.clients
            [sender,
              if conv.student_id = sender then conv.landlord_id else conv.student_id]
            { conversation_id := cid, sender_id := sender, content := content },
          ws.userType = some "student" && containsHelp content) := by
      simp [handleChatMessage, hauth, hconv]
    refine ⟨by rw [hmain], by rw [hmain], by rw [hmain],
      if conv.student_id = sender then conv.landlord_id else conv.student_id, ?_, ?_, ?_, ?_⟩
    · by_cases hs : conv.student_id = sender
      · simp only [if_pos hs]
        intro hc
        exact hne (hs.trans hc.symm)
      · simp only [if_neg hs]
        exact hs
    · by_cases hs : conv.student_id = sender <;> simp [hs]
    · intro uid huid c hc
      simp only [hmain]
      rw [mem_broadcast_pair]
      constructor
      · exact fun h => h.2
      · intro ho
        rcases huid with rfl | rfl
        · exact ⟨Or.inl hc, ho⟩
        · exact ⟨Or.inr hc, ho⟩
    · intro p hp
      simp only [hmain] at hp
      exact broadcast_pair_sound _ _ _ _ _ hp

/-- Witness for `chat_frame_relay`: a concrete conversation between
student `"s1"` and landlord `"l1"`, the student's socket authenticated
and both parties' sockets open and registered. -/
theorem chat_frame_relay_witness :
    (findConversation (RelayState.mk [⟨"c1", "p1", "s1", "l1"⟩] []
        [("s1", ⟨1, 1, some "s1", some "student"⟩), ("l1", ⟨2, 1, some "l1", some "landlord"⟩)]).conversations
        "c1" = none →
      handleChatMessage (RelayState.mk [⟨"c1", "p1", "s1", "l1"⟩] []
        [("s1", ⟨1, 1, some "s1", some "student"⟩), ("l1", ⟨2, 1, some "l1", some "landlord"⟩)])
        ⟨1, 1, some "s1", some "student"⟩ "c1" "hi" =
        (RelayState.mk [⟨"c1", "p1", "s1", "l1"⟩] []
          [("s1", ⟨1, 1, some "s1", some "student"⟩), ("l1", ⟨2, 1, some "l1", some "landlord"⟩)],
          [], false)) ∧
    (∀ conv, findConversation (RelayState.mk [⟨"c1", "p1", "s1", "l1"⟩] []
        [("s1", ⟨1, 1, some "s1", some "student"⟩), ("l1", ⟨2, 1, some "l1", some "landlord"⟩)]).conversations
        "c1" = some conv →
      conv.student_id ≠ conv.landlord_id →
      ("s1" = conv.student_id ∨ "s1" = conv.landlord_id) →
      ((handleChatMessage (RelayState.mk [⟨"c1", "p1", "s1", "l1"⟩] []
          [("s1", ⟨1, 1, some "s1", some "student"⟩), ("l1", ⟨2, 1, some "l1", some "landlord"⟩)])
          ⟨1, 1, some "s1", some "student"⟩ "c1" "hi").1.messages =
          (RelayState.mk [⟨"c1", "p1", "s1", "l1"⟩] []
            [("s1", ⟨1, 1, some "s1", some "student"⟩), ("l1", ⟨2, 1, some "l1", some "landlord"⟩)]).messages ++
            [{ conversation_id := "c1", sender_id := "s1", content := "hi" }] ∧
        (handleChatMessage (RelayState.mk [⟨"c1", "p1", "s1", "l1"⟩] []
          [("s1", ⟨1, 1, some "s1", some "student"⟩), ("l1", ⟨2, 1, some "l1", some "landlord"⟩)])
          ⟨1, 1, some "s1", some "student"⟩ "c1" "hi").1.conversations =
          (RelayState.mk [⟨"c1", "p1", "s1", "l1"⟩] []
            [("s1", ⟨1, 1, some "s1", some "student"⟩), ("l1", ⟨2, 1, some "l1", some "landlord"⟩)]).conversations ∧
        (handleChatMessage (RelayState.mk [⟨"c1", "p1", "s1", "l1"⟩] []
          [("s1", ⟨1, 1, some "s1", some "student"⟩), ("l1", ⟨2, 1, some "l1", some "landlord"⟩)])
          ⟨1, 1, some "s1", some "student"⟩ "c1" "hi").1.clients =
          (RelayState.mk [⟨"c1", "p1", "s1", "l1"⟩] []
            [("s1", ⟨1, 1, some "s1", some "student"⟩), ("l1", ⟨2, 1, some "l1", some "landlord"⟩)]).clients ∧
        ∃ recipientId, recipientId ≠ "s1" ∧
          (recipientId = conv.student_id ∨ recipientId = conv.landlord_id) ∧
          (∀ uid, (uid = "s1" ∨ uid = recipientId) →
            ∀ c, mapGet (RelayState.mk [⟨"c1", "p1", "s1", "l1"⟩] []
              [("s1", ⟨1, 1, some "s1", some "student"⟩), ("l1", ⟨2, 1, some "l1", some "landlord"⟩)]).clients uid = some c →
              ((c, ({ conversation_id := "c1", sender_id := "s1", content := "hi" } : Message))
                  ∈ (handleChatMessage (RelayState.mk [⟨"c1", "p1", "s1", "l1"⟩] []
                    [("s1", ⟨1, 1, some "s1", some "student"⟩), ("l1", ⟨2, 1, some "l1", some "landlord"⟩)])
                    ⟨1, 1, some "s1", some "student"⟩ "c1" "hi").2.1 ↔ c.readyState = wsOPEN)) ∧
          (∀ p ∈ (handleChatMessage (RelayState.mk [⟨"c1", "p1", "s1", "l1"⟩] []
              [("s1", ⟨1, 1, some "s1", some "student"⟩), ("l1", ⟨2, 1, some "l1", some "landlord"⟩)])
              ⟨1, 1, some "s1", some "student"⟩ "c1" "hi").2.1,
            p.2 = ({ conversation_id := "c1", sender_id := "s1", content := "hi" } : Message) ∧
            ∃ c, (mapGet (RelayState.mk [⟨"c1", "p1", "s1", "l1"⟩] []
                [("s1", ⟨1, 1, some "s1", some "student"⟩), ("l1", ⟨2, 1, some "l1", some "landlord"⟩)]).clients "s1" = some c ∨
              mapGet (RelayState.mk [⟨"c1", "p1", "s1", "l1"⟩] []
                [("s1", ⟨1, 1, some "s1", some "student"⟩), ("l1", ⟨2, 1, some "l1", some "landlord"⟩)]).clients recipientId = some c) ∧
              c.readyState = wsOPEN ∧ p.1 = c))) :=
  chat_frame_relay (RelayState.mk [⟨"c1", "p1", "s1", "l1"⟩] []
      [("s1", ⟨1, 1, some "s1", some "student"⟩), ("l1", ⟨2, 1, some "l1", some "landlord"⟩)])
    ⟨1, 1, some "s1", some "student"⟩ "c1" "hi" "s1" rfl

/-- C2: registering a second connection for the same user id silently
replaces the first: afterwards exactly one entry is retrievable for that
id — the connection registered second (with its auth fields set) — and
the at-most-one-connection-per-user-id invariant of the registry is
preserved. -/
theorem second_registration_replaces_first
    (m : List (String × Ws)) (hm : keysNodup m) (u ut1 ut2 : String) (w1 w2 : Ws) :
    mapGet (authRegister (authRegister m w1 u ut1).1 w2 u ut2).1 u =
      some { w2 with userId := some u, userType := some ut2 } ∧
    (((authRegister (authRegister m w1 u ut1).1 w2 u ut2).1).filter
        (fun e => e.1 = u)).length = 1 ∧
    keysNodup (authRegister (authRegister m w1 u ut1).1 w2 u ut2).1 := by
  simp only [authRegister]
  exact ⟨mapGet_mapSet_self _ _ _,
         count_key_mapSet _ _ _ (keysNodup_mapSet _ _ _ hm),
         keysNodup_mapSet _ _ _ (keysNodup_mapSet _ _ _ hm)⟩

/-- Witness for `second_registration_replaces_first` on an initially empty
registry and two concrete sockets. -/
theorem second_registration_replaces_first_witness :
    mapGet (authRegister (authRegister [] ⟨1, 1, none, none⟩ "u1" "student").1
        ⟨2, 1, none, none⟩ "u1" "student").1 "u1" =
      some { handle := 2, readyState := 1, userId := some "u1", userType := some "student" } ∧
    (((authRegister (authRegister [] ⟨1, 1, none, none⟩ "u1" "student").1
        ⟨2, 1, none, none⟩ "u1" "student").1).filter
        (fun e => e.1 = "u1")).length = 1 ∧
    keysNodup (authRegister (authRegister [] ⟨1, 1, none, none⟩ "u1" "student").1
        ⟨2, 1, none, none⟩ "u1" "student").1 :=
  second_registration_replaces_first [] (by simp [keysNodup]) "u1" "student" "student" _ _

/-- C10: after connection `A` and then connection `B` register for the
same user id, a close of the superseded connection `A` deletes the
registry entry unconditionally: `get` then returns absent, although
immediately before the close the entry held the still-open newer
connection `B`. -/
theorem stale_close_unregisters_current
    (m : List (String × Ws)) (hm : keysNodup m) (u utA utB : String) (A B : Ws)
    (hB : B.readyState = wsOPEN) :
    mapGet (closeHandler (authRegister (authRegister m A u utA).1 B u utB).1
        (authRegister m A u utA).2) u = none ∧
    mapGet (authRegister (authRegister m A u utA).1 B u utB).1 u =
      some (authRegister (authRegister m A u utA).1 B u utB).2 ∧
    ((authRegister (authRegister m A u utA).1 B u utB).2).readyState = wsOPEN := by
  refine ⟨?_, ?_, ?_⟩
  · simp only [authRegister, closeHandler]
    exact mapGet_mapDelete_self _ _ (keysNodup_mapSet _ _ _ (keysNodup_mapSet _ _ _ hm))
  · simp only [authRegister]
    exact mapGet_mapSet_self _ _ _
  · simpa [authRegister] using hB

/-- Witness for `stale_close_unregisters_current` with two concrete
sockets on an initially empty registry. -/
theorem stale_close_unregisters_current_witness :
    mapGet (closeHandler (authRegister (authRegister [] ⟨1, 1, none, none⟩ "u1" "student").1
        ⟨2, 1, none, none⟩ "u1" "student").1
        (authRegister [] ⟨1, 1, none, none⟩ "u1" "student").2) "u1" = none ∧
    mapGet (authRegister (authRegister [] ⟨1, 1, none, none⟩ "u1" "student").1
        ⟨2, 1, none, none⟩ "u1" "student").1 "u1" =
      some (authRegister (authRegister [] ⟨1, 1, none, none⟩ "u1" "student").1
        ⟨2, 1, none, none⟩ "u1" "student").2 ∧
    ((authRegister (authRegister [] ⟨1, 1, none, none⟩ "u1" "student").1
        ⟨2, 1, none, none⟩ "u1" "student").2).readyState = wsOPEN :=
  stale_close_unregisters_current [] (by simp [keysNodup]) "u1" "student" "student"
    ⟨1, 1, none, none⟩ ⟨2, 1, none, none⟩ rfl

/-- C9: every application endpoint's registration references the
middleware identifier `requireAuth`, which has no top-level binding in
the module; evaluating the registrations throws a `ReferenceError`
naming `requireAuth`, all four application paths carry that reference,
and none of them ever enters the route table — no request to these
endpoints can reach a handler. -/
theorem application_routes_never_registered :
    moduleEvalError sourceRegistrations = some "requireAuth" ∧
    (sourceRegistrations.filter (fun r => applicationPaths.contains r.path)).all
      (fun r => r.middleware.contains "requireAuth") = true ∧
    (sourceRegistrations.filter (fun r => applicationPaths.contains r.path)).length = 4 ∧
    (registeredRoutes sourceRegistrations).filter
      (fun r => applicationPaths.contains r.path) = [] ∧
    topLevelConsts.contains "requireAuth" = false :=
  ⟨rfl, rfl, rfl, rfl, rfl⟩

/-- C7 (code bug): the listing gatekeeper never fires.  A stored
unverified landlord (`user_type = "landlord"`, `isVerified = false`)
posting a valid listing receives 201 and the property is created for
them, because the source condition reads `user.userType` — not a schema
path of `UserSchema` (the path is `user_type`) — which is `undefined`,
so the access-denied branch is unreachable. -/
theorem unverified_landlord_post_not_rejected :
    unverifiedLandlord.user_type = "landlord" ∧
    unverifiedLandlord.isVerified = false ∧
    User.get unverifiedLandlord "userType" = JsValue.undefined ∧
    (postPropertyHandler [unverifiedLandlord] [] "l1" "p9" sampleListing []).2.status = 201 ∧
    (postPropertyHandler [unverifiedLandlord] [] "l1" "p9" sampleListing []).1.map
      (fun p => (p._id, p.landlord_id)) = [("p9", "l1")] :=
  ⟨rfl, rfl, rfl, rfl, rfl⟩

/-- C6 (code bug): the verify-action route (and the upload-verification
route) is registered with no authentication middleware and its handler
never inspects the caller, so a request with no Authorization header —
an unauthenticated, non-admin caller — moves a user's verification
state from `none` to `approved` (resp. to `pending`). -/
theorem unauthenticated_caller_changes_verification :
    unverifiedLandlord.verificationStatus = "none" ∧
    ((verifyActionHandler none [unverifiedLandlord] "l1" "approve").1.map
      (fun u => (u._id, u.verificationStatus, u.isVerified))) = [("l1", "approved", true)] ∧
    (verifyActionHandler none [unverifiedLandlord] "l1" "approve").2.status = 200 ∧
    ((uploadVerificationHandler none [unverifiedLandlord] (some "l1") (some "id.png")).1.map
      (fun u => (u._id, u.verificationStatus))) = [("l1", "pending")] :=
  ⟨rfl, rfl, rfl, rfl⟩

theorem findProperty_deletePropertyById (ps : List Property) (pid : String)
    (h : (ps.map (fun q => q._id)).Nodup) :
    findProperty (deletePropertyById ps pid) pid = none := by
  induction ps with
  | nil => rfl
  | cons p rest ih =>
    simp only [List.map_cons, List.nodup_cons] at h
    by_cases hp : p._id = pid
    · simp only [deletePropertyById, if_pos hp, findProperty]
      rw [List.find?_eq_none]
      intro q hq
      simp only [decide_eq_true_eq]
      intro hc
      apply h.1
      rw [hp, ← hc]
      exact List.mem_map_of_mem (fun q => q._id) hq
    · simp only [deletePropertyById, if_neg hp, findProperty]
      rw [List.find?_cons_of_neg _ (by simp [hp])]
      exact ih h.2

/-- C5: with the property found, editing (`PUT`) and deleting (`DELETE`)
are authorized by comparing the stored `landlord_id` with the
authenticated caller's user id: any other caller gets a 403
`User not authorized` response with the collection unchanged, for both
verbs; the owner gets a 200, and the delete removes the property from
the collection. -/
theorem property_edit_delete_owner_only
    (properties : List Property) (callerId pid : String) (body : PropertyUpdate)
    (p : Property) (hfind : findProperty properties pid = some p) :
    (p.landlord_id ≠ callerId →
      putPropertyHandler properties callerId pid body =
        (properties, { status := 403, message := "User not authorized" }) ∧
      deletePropertyHandler properties callerId pid =
        (properties, { status := 403, message := "User not authorized" })) ∧
    (p.landlord_id = callerId →
      (putPropertyHandler properties callerId pid body).2.status = 200 ∧
      (deletePropertyHandler properties callerId pid).2.status = 200 ∧
      ((properties.map (fun q => q._id)).Nodup →
        findProperty (deletePropertyHandler properties callerId pid).1 pid = none)) := by
  constructor
  · intro hne
    exact ⟨by simp [putPropertyHandler, hfind, hne],
           by simp [deletePropertyHandler, hfind, hne]⟩
  · intro heq
    refine ⟨by simp [putPropertyHandler, hfind, heq], by simp [deletePropertyHandler, hfind, heq], ?_⟩
    intro hnodup
    have h1 : (deletePropertyHandler properties callerId pid).1 =
        deletePropertyById properties pid := by
      simp [deletePropertyHandler, hfind, heq]
    rw [h1]
    exact findProperty_deletePropertyById properties pid hnodup

/-- Witness for `property_edit_delete_owner_only`: the stored property
is owned by `"A"` and the authenticated caller is `"B"`. -/
theorem property_edit_delete_owner_only_witness :
    (propertyOfA.landlord_id ≠ "B" →
      putPropertyHandler [propertyOfA] "B" "p1" {} =
        ([propertyOfA], { status := 403, message := "User not authorized" }) ∧
      deletePropertyHandler [propertyOfA] "B" "p1" =
        ([propertyOfA], { status := 403, message := "User not authorized" })) ∧
    (propertyOfA.landlord_id = "B" →
      (putPropertyHandler [propertyOfA] "B" "p1" {}).2.status = 200 ∧
      (deletePropertyHandler [propertyOfA] "B" "p1").2.status = 200 ∧
      (([propertyOfA].map (fun q => q._id)).Nodup →
        findProperty (deletePropertyHandler [propertyOfA] "B" "p1").1 "p1" = none)) :=
  property_edit_delete_owner_only [propertyOfA] "B" "p1" {} propertyOfA rfl

theorem atMostOne_saveReview (reviews : List Review) (r : Review) (l : List Review)
    (hone : atMostOneReviewPerPair reviews)
    (hsave : saveReview reviews r = .ok l) : atMostOneReviewPerPair l := by
  rw [saveReview] at hsave
  cases hv : reviewValid r with
  | false => rw [hv] at hsave; simp at hsave
  | true =>
    rw [hv] at hsave
    simp only [Bool.not_true, if_false, Bool.false_eq_true] at hsave
    cases hd : reviews.any (fun q => q.property_id = r.property_id && q.user_id = r.user_id) with
    | true => rw [hd] at hsave; simp at hsave
    | false =>
      rw [hd] at hsave
      simp only [if_false, Bool.false_eq_true, Except.ok.injEq] at hsave
      subst hsave
      unfold atMostOneReviewPerPair at *
      rw [List.pairwise_append]
      refine ⟨hone, List.pairwise_singleton _ _, ?_⟩
      intro a ha b hb
      simp only [List.mem_singleton] at hb
      subst hb
      intro hcon
      have hfa := List.any_eq_false.mp hd a ha
      simp [hcon.1, hcon.2] at hfa

theorem postReview_preserves_atMostOne (reviews : List Review)
    (uid ut pid : String) (rating : Option Nat) (cm : Option String)
    (hone : atMostOneReviewPerPair reviews) :
    atMostOneReviewPerPair (postReviewHandler reviews uid ut pid rating cm).1 := by
  unfold postReviewHandler
  split
  · exact hone
  · split
    · exact hone
    · cases hsave : saveReview reviews
          { property_id := pid, user_id := uid, rating := rating.getD 0,
            comment := cm.getD "" } with
      | error e => cases e <;> simp only [hsave] <;> exact hone
      | ok l => simp only [hsave]; exact atMostOne_saveReview _ _ _ hone hsave

/-- C4: a second review submission by a student with a schema-valid
rating and comment for a `(property, user)` pair that already has a
review is rejected with the distinguishable 409 conflict (`You have
already reviewed this property.`) and the collection is unchanged; and
the review route preserves at-most-one-review-per-pair, so the store
never holds two reviews for one pair. -/
theorem second_review_conflict
    (reviews other : List Review) (userId propertyId : String) (n : Nat) (c : String)
    (uid ut pid : String) (rating : Option Nat) (cm : Option String)
    (hdup : ∃ q ∈ reviews, q.property_id = propertyId ∧ q.user_id = userId)
    (hn1 : 1 ≤ n) (hn5 : n ≤ 5) (hc : c ≠ "") (hlen : c.length ≤ 1000)
    (hone : atMostOneReviewPerPair other) :
    postReviewHandler reviews userId "student" propertyId (some n) (some c) =
      (reviews, { status := 409, message := "You have already reviewed this property." }) ∧
    atMostOneReviewPerPair (postReviewHandler other uid ut pid rating cm).1 := by
  refine ⟨?_, postReview_preserves_atMostOne other uid ut pid rating cm hone⟩
  have hn0 : ¬(n = 0) := by omega
  have hvalid : reviewValid
      { property_id := propertyId, user_id := userId, rating := n, comment := c } = true := by
    simp [reviewValid, hn1, hn5, hc, hlen]
  have hany : reviews.any
      (fun q => q.property_id = propertyId && q.user_id = userId) = true := by
    rw [List.any_eq_true]
    obtain ⟨q, hq, h1, h2⟩ := hdup
    exact ⟨q, hq, by simp [h1, h2]⟩
  simp [postReviewHandler, hn0, hc, saveReview, hvalid, hany]

/-- Witness for `second_review_conflict`: user `"u1"` has already
reviewed property `"p1"` and submits a second valid review for it. -/
theorem second_review_conflict_witness :
    postReviewHandler [{ property_id := "p1", user_id := "u1", rating := 5, comment := "good" }]
        "u1" "student" "p1" (some 4) (some "nice") =
      ([{ property_id := "p1", user_id := "u1", rating := 5, comment := "good" }],
        { status := 409, message := "You have already reviewed this property." }) ∧
    atMostOneReviewPerPair
      (postReviewHandler [] "u2" "student" "p2" (some 3) (some "ok")).1 :=
  second_review_conflict
    [{ property_id := "p1", user_id := "u1", rating := 5, comment := "good" }] []
    "u1" "p1" 4 "nice" "u2" "student" "p2" (some 3) (some "ok")
    ⟨{ property_id := "p1", user_id := "u1", rating := 5, comment := "good" },
      by simp, rfl, rfl⟩
    (by decide) (by decide) (by decide) (by decide) List.Pairwise.nil

/-- C3 counterexample: with the favorite `(u1, p1)` already stored, a
second `POST /api/favorites` for the same pair answers the generic 500
`Error adding favorite`, not a 409-style conflict (the route, unlike the
review route, has no `error.code === 11000` branch); no duplicate record
is created. -/
theorem duplicate_favorite_returns_generic_500 :
    (postFavoriteHandler dupFavoriteState "u1" "p1").2.1.status = 500 ∧
    (postFavoriteHandler dupFavoriteState "u1" "p1").2.1.status ≠ 409 ∧
    (postFavoriteHandler dupFavoriteState "u1" "p1").2.1.message = "Error adding favorite" ∧
    (postFavoriteHandler dupFavoriteState "u1" "p1").1 = dupFavoriteState :=
  ⟨rfl, by decide, rfl, rfl⟩

/-- C3 (amended): whenever a favorite for the `(user, property)` pair
already exists, a second creation attempt fails — the whole state is
unchanged (no duplicate record, no notification, no send) — but with
the generic 500 `Error adding favorite` response rather than a
distinguishable 409 conflict. -/
theorem duplicate_favorite_fails_without_conflict
    (st : FavoritesState) (userId pid : String)
    (hdup : ∃ g ∈ st.favorites, g.user_id = userId ∧ g.property_id = pid) :
    postFavoriteHandler st userId pid =
      (st, { status := 500, message := "Error adding favorite" }, []) := by
  have hany : st.favorites.any
      (fun g => g.user_id = userId && g.property_id = pid) = true := by
    rw [List.any_eq_true]
    obtain ⟨g, hg, h1, h2⟩ := hdup
    exact ⟨g, hg, by simp [h1, h2]⟩
  unfold postFavoriteHandler saveFavorite
  simp [hany]

/-- Witness for `duplicate_favorite_fails_without_conflict` on the
concrete duplicate state. -/
theorem duplicate_favorite_fails_without_conflict_witness :
    postFavoriteHandler dupFavoriteState "u1" "p1" =
      (dupFavoriteState, { status := 500, message := "Error adding favorite" }, []) :=
  duplicate_favorite_fails_without_conflict dupFavoriteState "u1" "p1"
    ⟨{ user_id := "u1", property_id := "p1" }, by simp [dupFavoriteState], rfl, rfl⟩

theorem findUserById_deleteUserById (users : List User) (uid : String)
    (h : (users.map (fun w => w._id)).Nodup) :
    findUserById (deleteUserById users uid) uid = none := by
  induction users with
  | nil => rfl
  | cons u rest ih =>
    simp only [List.map_cons, List.nodup_cons] at h
    by_cases hu : u._id = uid
    · simp only [deleteUserById, if_pos hu, findUserById]
      rw [List.find?_eq_none]
      intro q hq
      simp only [decide_eq_true_eq]
      intro hc
      apply h.1
      rw [hu, ← hc]
      exact List.mem_map_of_mem (fun w => w._id) hq
    · simp only [deleteUserById, if_neg hu, findUserById]
      rw [List.find?_cons_of_neg _ (by simp [hu])]
      exact ih h.2

theorem mem_landlord_ids (properties : List Property) (userId : String) (p : Property)
    (hp : p ∈ properties) (hlp : p.landlord_id = userId) :
    p._id ∈ (properties.filter (fun q => q.landlord_id == userId)).map (fun q => q._id) :=
  List.mem_map_of_mem _ (List.mem_filter.mpr ⟨hp, by simp [hlp]⟩)

theorem ne_of_not_contains (ids : List String) (x y : String)
    (hx : (!(ids.contains x)) = true) (hy : y ∈ ids) : x ≠ y := by
  intro hc
  subst hc
  have hx' : x ∉ ids := by simpa using hx
  exact hx' hy

/-- C8: a landlord's account deletion with the correct password answers
200 and cascades: afterwards no stored property has this landlord as
owner, and no remaining favorite, conversation or property view
references any property that belonged to this landlord before the
deletion; the user document itself is removed (given distinct stored
user ids). -/
theorem landlord_deletion_cascades
    (st : AccountState) (userId : String) (u : User)
    (hfind : findUserById st.users userId = some u)
    (hpw : u.password ≠ "") :
    (deleteAccountHandler st userId "landlord" (some u.password)).2.status = 200 ∧
    (∀ p ∈ (deleteAccountHandler st userId "landlord" (some u.password)).1.properties,
      p.landlord_id ≠ userId) ∧
    (∀ f ∈ (deleteAccountHandler st userId "landlord" (some u.password)).1.favorites,
      ∀ p ∈ st.properties, p.landlord_id = userId → f.property_id ≠ p._id) ∧
    (∀ c ∈ (deleteAccountHandler st userId "landlord" (some u.password)).1.conversations,
      ∀ p ∈ st.properties, p.landlord_id = userId → c.property_id ≠ p._id) ∧
    (∀ v ∈ (deleteAccountHandler st userId "landlord" (some u.password)).1.propertyViews,
      ∀ p ∈ st.properties, p.landlord_id = userId → v.property_id ≠ p._id) ∧
    ((st.users.map (fun w => w._id)).Nodup →
      findUserById (deleteAccountHandler st userId "landlord" (some u.password)).1.users
        userId = none) := by
  have hred : deleteAccountHandler st userId "landlord" (some u.password) =
      ({ users := deleteUserById st.users userId,
         properties := st.properties.filter (fun p => p.landlord_id != userId),
         favorites := st.favorites.filter (fun f =>
           !(((st.properties.filter (fun p => p.landlord_id == userId)).map
               (fun p => p._id)).contains f.property_id)),
         conversations := st.conversations.filter (fun c =>
           !(((st.properties.filter (fun p => p.landlord_id == userId)).map
               (fun p => p._id)).contains c.property_id)),
         propertyViews := st.propertyViews.filter (fun v =>
           !(((st.properties.filter (fun p => p.landlord_id == userId)).map
               (fun p => p._id)).contains v.property_id)) },
        { status := 200, message := "Your account has been permanently deleted." }) := by
    simp [deleteAccountHandler, jsFalsyStr, hpw, hfind]
  refine ⟨by rw [hred], ?_, ?_, ?_, ?_, ?_⟩
  · intro p hp
    rw [hred] at hp
    simp only [List.mem_filter, bne_iff_ne, ne_eq] at hp
    exact hp.2
  · intro f hf p hp hlp
    rw [hred] at hf
    exact ne_of_not_contains _ _ _ (List.mem_filter.mp hf).2
      (mem_landlord_ids st.properties userId p hp hlp)
  · intro c hc p hp hlp
    rw [hred] at hc
    exact ne_of_not_contains _ _ _ (List.mem_filter.mp hc).2
      (mem_landlord_ids st.properties userId p hp hlp)
  · intro v hv p hp hlp
    rw [hred] at hv
    exact ne_of_not_contains _ _ _ (List.mem_filter.mp hv).2
      (mem_landlord_ids st.properties userId p hp hlp)
  · intro hnodup
    rw [hred]
    exact findUserById_deleteUserById st.users userId hnodup

/-- Witness for `landlord_deletion_cascades` on the concrete state where
landlord `"L"` owns a property referenced by a favorite, a conversation
and a view. -/
theorem landlord_deletion_cascades_witness :
    (deleteAccountHandler cascadeState "L" "landlord" (some landlordUser.password)).2.status = 200 ∧
    (∀ p ∈ (deleteAccountHandler cascadeState "L" "landlord" (some landlordUser.password)).1.properties,
      p.landlord_id ≠ "L") ∧
    (∀ f ∈ (deleteAccountHandler cascadeState "L" "landlord" (some landlordUser.password)).1.favorites,
      ∀ p ∈ cascadeState.properties, p.landlord_id = "L" → f.property_id ≠ p._id) ∧
    (∀ c ∈ (deleteAccountHandler cascadeState "L" "landlord" (some landlordUser.password)).1.conversations,
      ∀ p ∈ cascadeState.properties, p.landlord_id = "L" → c.property_id ≠ p._id) ∧
    (∀ v ∈ (deleteAccountHandler cascadeState "L" "landlord" (some landlordUser.password)).1.propertyViews,
      ∀ p ∈ cascadeState.properties, p.landlord_id = "L" → v.property_id ≠ p._id) ∧
    ((cascadeState.users.map (fun w => w._id)).Nodup →
      findUserById (deleteAccountHandler cascadeState "L" "landlord"
        (some landlordUser.password)).1.users "L" = none) :=
  landlord_deletion_cascades cascadeState "L" landlordUser rfl (by decide)

end HousingHub
